import Mathlib

/-!
Verification of the personal-AI-assistant profile-setup tool.

The Python program (setup_profile.py, src/qdrant_client.py, src/utils.py) is
embedded shallowly: the external systems — the filesystem, the Ollama
embedding HTTP endpoint and the Qdrant vector store — are modelled as
oracles supplied as arguments, and every operation additionally returns the
trace of calls it made (network calls to the two services, plus printed
messages).  Python exceptions are modelled with `Except`; a `try/except`
boundary in the source becomes a `match` on the `Except` value.
-/

namespace PersonalAI

/-- JSON values as produced by Python `json.load` (numeric precision is
irrelevant to this program, so numbers are integers). -/
inductive Json where
  | null : Json
  | bool (b : Bool) : Json
  | num (n : Int) : Json
  | str (s : String) : Json
  | arr (items : List Json) : Json
  | obj (fields : List (String × Json)) : Json

/-- Lookup of a key in a JSON object field list (Python dict access order). -/
def lookupField : List (String × Json) → String → Option Json
  | [], _ => none
  | (k, v) :: rest, key => if k = key then some v else lookupField rest key

/-- `body["key"]` when `body` is known to be a dict, returning `none`
otherwise (used where the Python code handles KeyError explicitly). -/
def Json.getField : Json → String → Option Json
  | .obj fields, key => lookupField fields key
  | _, _ => none

/-- Python subscript `block[key]` with its exception behaviour: KeyError on
a dict without the key, TypeError on non-dict values. -/
def pyIndexStr : Json → String → Except String Json
  | .obj fields, key =>
    match lookupField fields key with
    | some v => Except.ok v
    | none => Except.error ("KeyError: " ++ key)
  | .arr _, _ => Except.error "TypeError: list indices must be integers"
  | .str _, _ => Except.error "TypeError: string indices must be integers"
  | _, _ => Except.error "TypeError: object is not subscriptable"

/-- Python iteration `for block in blocks`: lists yield their items, dicts
their keys, strings their characters; other values raise TypeError. -/
def pyIter : Json → Except String (List Json)
  | .arr items => Except.ok items
  | .obj fields => Except.ok (fields.map (fun kv => Json.str kv.1))
  | .str s => Except.ok (s.data.map (fun c => Json.str (String.mk [c])))
  | _ => Except.error "TypeError: object is not iterable"

/-- What the filesystem holds at a path: nothing, a file that is not valid
JSON, or a file whose whole content parses to a JSON value. -/
inductive FileContent where
  | missing : FileContent
  | invalid : FileContent
  | valid (j : Json) : FileContent

/-- The filesystem oracle. -/
def FS : Type := String → FileContent

/-- src/utils.py `validate_json_file`: true iff the file opens and parses
as JSON; FileNotFoundError and JSONDecodeError are caught and give False. -/
def validate_json_file (fs : FS) (filename : String) : Bool :=
  match fs filename with
  | FileContent.valid _ => true
  | _ => false

/-- src/utils.py `load_blocks_from_json`: returns the parsed JSON value, or
raises a wrapped exception on a missing or unparsable file. -/
def load_blocks_from_json (fs : FS) (filename : String) : Except String Json :=
  match fs filename with
  | FileContent.valid j => Except.ok j
  | _ => Except.error ("Error loading JSON file " ++ filename)

/-- `os.path.exists` on the modelled filesystem. -/
def os_path_exists (fs : FS) (filename : String) : Bool :=
  match fs filename with
  | FileContent.missing => false
  | _ => true

/-- Distance metrics of the vector store; the code only ever uses cosine. -/
inductive Distance where
  | cosine : Distance
  | euclid : Distance
  | dot : Distance

/-- A point sent to the vector store: optional explicit id, a vector (kept
as the raw JSON value the embedding endpoint returned, since the code never
inspects it), and a payload dict. -/
structure Point where
  id : Option Json
  vector : Json
  payload : List (String × Json)

/-- Observable calls the program makes: network calls to the vector store
and the embedding endpoint, and printed status messages. -/
inductive Event where
  | createCollection (name : String) (size : Nat) (dist : Distance) : Event
  | getCollection (name : String) : Event
  | upsert (name : String) (points : List Point) : Event
  | search (name : String) (queryVector : Json) (limit : Nat) (withPayload : Bool) : Event
  | embedRequest (model : String) (prompt : Json) : Event
  | print (msg : String) : Event

/-- Outcome of the HTTP POST to the embedding endpoint: a transport-level
failure (requests.RequestException, including non-2xx via raise_for_status)
or a parsed JSON response body. -/
inductive HttpResult where
  | transportError (msg : String) : HttpResult
  | response (body : Json) : HttpResult

/-- The embedding-service oracle: the response to a POST with the given
prompt (the prompt is whatever value `block["text"]` held). -/
def EmbedSvc : Type := Json → HttpResult

/-- The vector-store oracle: the outcome of each store call the client
library can make; `Except.error` models the library raising. -/
structure StoreOracle where
  createResult : String → Nat → Distance → Except String Unit
  getCollectionResult : String → Except String Nat
  upsertResult : String → List Point → Except String Unit
  searchResult : String → Json → Nat → Except String (List Json)

def OLLAMA_URL : String := "http://localhost:11434"

def VECTOR_SIZE : Nat := 768

def EMBED_MODEL : String := "nomic-embed-text"

/-- `PersonalAIQdrantClient._get_collection_name`. -/
def get_collection_name (user_id base_name : String) : String :=
  user_id ++ "_" ++ base_name

/-- `PersonalAIQdrantClient.create_collection`: attempts the store call with
the given size and cosine distance; any exception (including an
already-exists error) is caught, printed, and turned into `false`. -/
def create_collection (so : StoreOracle) (collection_name : String) (vector_size : Nat) :
    Bool × List Event :=
  match so.createResult collection_name vector_size Distance.cosine with
  | Except.ok _ =>
    (true, [Event.createCollection collection_name vector_size Distance.cosine,
            Event.print ("Collection created: " ++ collection_name)])
  | Except.error e =>
    (false, [Event.createCollection collection_name vector_size Distance.cosine,
             Event.print ("Collection already exist or Error: " ++ e)])

/-- `PersonalAIQdrantClient.get_embedding`: POSTs the prompt, then runs
`response.json()["embedding"]`.  Its handlers catch only RequestException
(normalized to an Ollama API error) and KeyError (a dict body without the
field, normalized to an unexpected-response error).  When the body is not
a dict the subscript raises TypeError, which neither handler catches: that
raw error escapes the function unchanged. -/
def get_embedding (svc : EmbedSvc) (text : Json) : Except String Json × List Event :=
  match svc text with
  | HttpResult.transportError e =>
    (Except.error ("Ollama API Error: " ++ e), [Event.embedRequest EMBED_MODEL text])
  | HttpResult.response body =>
    match body with
    | Json.obj fields =>
      match lookupField fields "embedding" with
      | some v => (Except.ok v, [Event.embedRequest EMBED_MODEL text])
      | none => (Except.error "Unexpected Ollama API response",
                 [Event.embedRequest EMBED_MODEL text])
    | _ => (pyIndexStr body "embedding", [Event.embedRequest EMBED_MODEL text])

/-- The `for block in blocks` loop of `upload_profile`: per block, read
`block["text"]`, call the embedding service, then read `block["id"]` and
`block["category"]` to assemble the point; the first exception aborts. -/
def build_points (svc : EmbedSvc) : List Json → Except String (List Point) × List Event
  | [] => (Except.ok [], [])
  | block :: rest =>
    match pyIndexStr block "text" with
    | Except.error e => (Except.error e, [])
    | Except.ok textVal =>
      match get_embedding svc textVal with
      | (Except.error e, ev) => (Except.error e, ev)
      | (Except.ok embedding, ev) =>
        match pyIndexStr block "id" with
        | Except.error e => (Except.error e, ev)
        | Except.ok idVal =>
          match pyIndexStr block "category" with
          | Except.error e => (Except.error e, ev)
          | Except.ok catVal =>
            match build_points svc rest with
            | (Except.error e, evr) => (Except.error e, ev ++ evr)
            | (Except.ok ps, evr) =>
              (Except.ok (⟨some idVal, embedding,
                           [("text", textVal), ("category", catVal)]⟩ :: ps),
               ev ++ evr)

/-- `PersonalAIQdrantClient.upload_profile`: validate the file, create the
collection (result ignored), load the blocks, build one point per block,
then one bulk upsert; the whole body is wrapped in a catch-all returning
`false`. -/
def upload_profile (user_id : String) (fs : FS) (svc : EmbedSvc) (so : StoreOracle)
    (json_file : String) : Bool × List Event :=
  if validate_json_file fs json_file then
    let collection_name := get_collection_name user_id "profile"
    let r1 := create_collection so collection_name VECTOR_SIZE
    match load_blocks_from_json fs json_file with
    | Except.error e => (false, r1.2 ++ [Event.print ("Error uploading profile: " ++ e)])
    | Except.ok j =>
      match pyIter j with
      | Except.error e => (false, r1.2 ++ [Event.print ("Error uploading profile: " ++ e)])
      | Except.ok blocks =>
        match build_points svc blocks with
        | (Except.error e, ev2) =>
          (false, r1.2 ++ ev2 ++ [Event.print ("Error uploading profile: " ++ e)])
        | (Except.ok points, ev2) =>
          match so.upsertResult collection_name points with
          | Except.error e =>
            (false, r1.2 ++ ev2 ++ [Event.upsert collection_name points,
                                    Event.print ("Error uploading profile: " ++ e)])
          | Except.ok _ =>
            (true, r1.2 ++ ev2 ++ [Event.upsert collection_name points,
                                   Event.print (toString points.length ++ " profile blocks uploaded.")])
  else
    (false, [Event.print ("Error: " ++ json_file ++ " is not a valid JSON-file.")])

/-- `PersonalAIQdrantClient.setup_conversation_collection`: create the
conversations collection (result ignored; `create_collection` never raises),
then query the collection info; a failure there is caught and gives `false`. -/
def setup_conversation_collection (user_id : String) (so : StoreOracle) : Bool × List Event :=
  let collection_name := get_collection_name user_id "conversations"
  let r1 := create_collection so collection_name VECTOR_SIZE
  match so.getCollectionResult collection_name with
  | Except.ok n =>
    (true, r1.2 ++ [Event.getCollection collection_name,
      Event.print ("Collection " ++ collection_name ++ " ready: " ++ toString n ++ " points.")])
  | Except.error e =>
    (false, r1.2 ++ [Event.getCollection collection_name,
      Event.print ("error creating collection " ++ collection_name ++ ": " ++ e)])

/-- `PersonalAIQdrantClient.add_conversation`: embed the space-joined pair
of messages, upsert one id-less point whose payload holds both messages and
the current timestamp (`now`, the clock input); failures give `false`. -/
def add_conversation (user_id : String) (svc : EmbedSvc) (so : StoreOracle) (now : String)
    (user_message assistant_response : String) : Bool × List Event :=
  let collection_name := get_collection_name user_id "conversations"
  let full_text := user_message ++ " " ++ assistant_response
  match get_embedding svc (Json.str full_text) with
  | (Except.error e, ev) => (false, ev ++ [Event.print ("Error adding conversation: " ++ e)])
  | (Except.ok embedding, ev) =>
    let points : List Point :=
      [⟨none, embedding,
        [("type", Json.str "conversation"),
         ("user_message", Json.str user_message),
         ("assistant_response", Json.str assistant_response),
         ("timestamp", Json.str now)]⟩]
    match so.upsertResult collection_name points with
    | Except.error e =>
      (false, ev ++ [Event.upsert collection_name points,
                     Event.print ("Error adding conversation: " ++ e)])
    | Except.ok _ =>
      (true, ev ++ [Event.upsert collection_name points,
                    Event.print ("Conversation added to " ++ collection_name)])

/-- `PersonalAIQdrantClient.search_similar`: embed the query and run the
store search with payloads; any failure is caught and gives `[]`. -/
def search_similar (user_id : String) (svc : EmbedSvc) (so : StoreOracle)
    (collection_type query_text : String) (limit : Nat) : List Json × List Event :=
  let collection_name := get_collection_name user_id collection_type
  match get_embedding svc (Json.str query_text) with
  | (Except.error e, ev) => ([], ev ++ [Event.print ("Error searching: " ++ e)])
  | (Except.ok query_embedding, ev) =>
    match so.searchResult collection_name query_embedding limit with
    | Except.ok results =>
      (results, ev ++ [Event.search collection_name query_embedding limit true])
    | Except.error e =>
      ([], ev ++ [Event.search collection_name query_embedding limit true,
                  Event.print ("Error searching: " ++ e)])

/-- setup_profile.py `upload_profile_command`: existence check, JSON
validation, then the client upload; `upload_profile` itself cannot raise,
so the surrounding try/except is inert in the model. -/
def upload_profile_command (user_id : String) (fs : FS) (svc : EmbedSvc) (so : StoreOracle)
    (json_file : String) : Bool × List Event :=
  let p0 := Event.print ("Uploading for user " ++ user_id ++ " from " ++ json_file ++ " ...")
  if os_path_exists fs json_file then
    if validate_json_file fs json_file then
      let r := upload_profile user_id fs svc so json_file
      (r.1, p0 :: r.2 ++
        [Event.print (if r.1 then "Profile upload completed!" else "Profile upload failed!")])
    else
      (false, [p0, Event.print ("Error: " ++ json_file ++ " is not a valid JSON file.")])
  else
    (false, [p0, Event.print ("Error: File " ++ json_file ++ " not found.")])

/-- setup_profile.py `main`, upload route: client construction may fail
(`connect`), which exits 1 before any operation; otherwise the command runs
and its boolean becomes the exit code (0 on success, 1 otherwise). -/
def main_upload (connect : Except String Unit) (user_id : String) (fs : FS) (svc : EmbedSvc)
    (so : StoreOracle) (json_file : String) : Nat × List Event :=
  match connect with
  | Except.error e => (1, [Event.print ("Failed to connect to Qdrant: " ++ e)])
  | Except.ok _ =>
    let r := upload_profile_command user_id fs svc so json_file
    (if r.1 then 0 else 1,
     Event.print "Connected to Qdrant" :: r.2 ++
       [Event.print (if r.1 then "Command completed successfully!" else "Command failed!")])

/-- Network calls are every event except a print. -/
def isNetworkCall : Event → Bool
  | Event.print _ => false
  | _ => true

/-- The network calls of a trace. -/
def networkCalls (evs : List Event) : List Event :=
  evs.filter isNetworkCall

/-- A profile block as described by the data model: an id, a text and a
category (each an arbitrary JSON value; the code never checks their types). -/
structure Block where
  id : Json
  text : Json
  category : Json

/-- The JSON record of a block, as it sits in the profile file. -/
def Block.toJson (b : Block) : Json :=
  Json.obj [("id", b.id), ("text", b.text), ("category", b.category)]

/-- The point `upload_profile` builds for a block, given the embedding the
service returned for its text. -/
def mkProfilePoint (emb : Json → Json) (b : Block) : Point :=
  ⟨some b.id, emb b.text, [("text", b.text), ("category", b.category)]⟩

/-- The single point `add_conversation` builds. -/
def mkConvPoint (v : Json) (now user_message assistant_response : String) : Point :=
  ⟨none, v,
   [("type", Json.str "conversation"),
    ("user_message", Json.str user_message),
    ("assistant_response", Json.str assistant_response),
    ("timestamp", Json.str now)]⟩

/-- A 768-dimensional vector value. -/
def vec768 (v : Json) : Prop :=
  ∃ xs, v = Json.arr xs ∧ xs.length = 768

/-- All three subscripts the upload loop performs on a block succeed. -/
def blockFieldsOk (b : Json) : Prop :=
  (∃ v, pyIndexStr b "text" = Except.ok v) ∧
  (∃ v, pyIndexStr b "id" = Except.ok v) ∧
  (∃ v, pyIndexStr b "category" = Except.ok v)

/-- A store oracle on which every call succeeds (empty store). -/
def okStore : StoreOracle :=
  ⟨fun _ _ _ => Except.ok (), fun _ => Except.ok 0,
   fun _ _ => Except.ok (), fun _ _ _ => Except.ok []⟩

/-- A store oracle whose upsert call always raises. -/
def failUpsertStore : StoreOracle :=
  ⟨fun _ _ _ => Except.ok (), fun _ => Except.ok 0,
   fun _ _ => Except.error "upsert failed", fun _ _ _ => Except.ok []⟩

/-- A store oracle on which collection creation raises (collections already
exist) while everything else succeeds. -/
def existsStore : StoreOracle :=
  ⟨fun _ _ _ => Except.error "collection already exists", fun _ => Except.ok 5,
   fun _ _ => Except.ok (), fun _ _ _ => Except.ok []⟩

/-- A store oracle whose search call always raises. -/
def failSearchStore : StoreOracle :=
  ⟨fun _ _ _ => Except.ok (), fun _ => Except.ok 0,
   fun _ _ => Except.ok (), fun _ _ _ => Except.error "search failed"⟩

/-- A filesystem with no files. -/
def emptyFS : FS := fun _ => FileContent.missing

/-- A filesystem on which every file exists but holds broken JSON. -/
def invalidFS : FS := fun _ => FileContent.invalid

/-- A filesystem on which every file holds the JSON value `j`. -/
def constFS (j : Json) : FS := fun _ => FileContent.valid j

/-- An embedding service that is down: every call is a transport error. -/
def noEmbed : EmbedSvc := fun _ => HttpResult.transportError "connection refused"

/-- A concrete 768-dimensional vector. -/
def embedVec768 : Json := Json.arr (List.replicate 768 (Json.num 0))

/-- An embedding service answering every prompt with `{embedding: v}`. -/
def goodSvc (v : Json) : EmbedSvc :=
  fun _ => HttpResult.response (Json.obj [("embedding", v)])

/-- A concrete well-formed profile block. -/
def sampleBlock : Block :=
  ⟨Json.num 1, Json.str "likes tea", Json.str "preferences"⟩

/-- A store oracle on which every call raises (store unreachable). -/
def downStore : StoreOracle :=
  ⟨fun _ _ _ => Except.error "connection refused",
   fun _ => Except.error "connection refused",
   fun _ _ => Except.error "connection refused",
   fun _ _ _ => Except.error "connection refused"⟩

/-- A filesystem whose every file holds a one-block profile array. -/
def sampleFS : FS := constFS (Json.arr ([sampleBlock].map Block.toJson))

/-- The embedding function realised by `goodSvc embedVec768`. -/
def sampleEmb : Json → Json := fun _ => embedVec768

/-- An embedding service that always answers with the 768-long vector. -/
def sampleSvc : EmbedSvc := goodSvc embedVec768

/-- Whether a JSON value is a dict. -/
def Json.isObj : Json → Bool
  | Json.obj _ => true
  | _ => false

/-- An embedding service answering every prompt with a JSON list body —
syntactically valid JSON that is not a dict. -/
def listBodySvc : EmbedSvc := fun _ => HttpResult.response (Json.arr [])

/-- One call to `get_embedding` performs exactly one embedding request. -/
theorem get_embedding_trace (svc : EmbedSvc) (t : Json) :
    (get_embedding svc t).2 = [Event.embedRequest EMBED_MODEL t] := by
  cases hsvc : svc t with
  | transportError e => simp [get_embedding, hsvc]
  | response body =>
    cases body with
    | obj fields =>
      cases hf : lookupField fields "embedding" <;> simp [get_embedding, hsvc, hf]
    | null => simp [get_embedding, hsvc]
    | bool b => simp [get_embedding, hsvc]
    | num n => simp [get_embedding, hsvc]
    | str s => simp [get_embedding, hsvc]
    | arr items => simp [get_embedding, hsvc]

/-- `get_embedding` as a pair, with its trace made explicit. -/
theorem get_embedding_pair (svc : EmbedSvc) (t : Json) :
    get_embedding svc t = ((get_embedding svc t).1, [Event.embedRequest EMBED_MODEL t]) := by
  rw [← get_embedding_trace svc t]

/-- `create_collection` performs exactly one store call, with the size and
distance it was given, whether or not the call succeeds. -/
theorem create_collection_net (so : StoreOracle) (name : String) (sz : Nat) :
    networkCalls (create_collection so name sz).2 =
      [Event.createCollection name sz Distance.cosine] := by
  cases hc : so.createResult name sz Distance.cosine <;>
    simp [create_collection, hc, networkCalls, isNetworkCall]

/-- Every event of `create_collection` is its one store call or a print. -/
theorem create_collection_mem (so : StoreOracle) (name : String) (sz : Nat) (e : Event)
    (he : e ∈ (create_collection so name sz).2) :
    e = Event.createCollection name sz Distance.cosine ∨ ∃ m, e = Event.print m := by
  cases hc : so.createResult name sz Distance.cosine with
  | ok u =>
    simp [create_collection, hc] at he
    rcases he with h | h
    · exact Or.inl h
    · exact Or.inr ⟨_, h⟩
  | error er =>
    simp [create_collection, hc] at he
    rcases he with h | h
    · exact Or.inl h
    · exact Or.inr ⟨_, h⟩

/-- Reading the text field of a well-formed block record. -/
theorem pyIndex_block_text (b : Block) : pyIndexStr b.toJson "text" = Except.ok b.text := by
  simp [Block.toJson, pyIndexStr, lookupField]

/-- Reading the id field of a well-formed block record. -/
theorem pyIndex_block_id (b : Block) : pyIndexStr b.toJson "id" = Except.ok b.id := by
  simp [Block.toJson, pyIndexStr, lookupField]

/-- Reading the category field of a well-formed block record. -/
theorem pyIndex_block_category (b : Block) :
    pyIndexStr b.toJson "category" = Except.ok b.category := by
  simp [Block.toJson, pyIndexStr, lookupField]

/-- On a list of well-formed block records whose embeddings all succeed,
the upload loop performs one embedding request per block, in order, and
produces exactly the corresponding points. -/
theorem build_points_map (svc : EmbedSvc) (emb : Json → Json) (bs : List Block)
    (hemb : ∀ b ∈ bs, (get_embedding svc b.text).1 = Except.ok (emb b.text)) :
    build_points svc (bs.map Block.toJson) =
      (Except.ok (bs.map (mkProfilePoint emb)),
       bs.map (fun b => Event.embedRequest EMBED_MODEL b.text)) := by
  induction bs with
  | nil => rfl
  | cons b rest ih =>
    have hb : get_embedding svc b.text =
        (Except.ok (emb b.text), [Event.embedRequest EMBED_MODEL b.text]) := by
      rw [get_embedding_pair svc b.text, hemb b (by simp)]
    have hrest := ih (fun x hx => hemb x (List.mem_cons_of_mem b hx))
    simp only [List.map_cons, build_points, pyIndex_block_text, hb, pyIndex_block_id,
      pyIndex_block_category, hrest]
    simp [mkProfilePoint]

/-- Every event the upload loop emits is an embedding request. -/
theorem build_points_events (svc : EmbedSvc) (blocks : List Json) :
    ∀ e ∈ (build_points svc blocks).2, ∃ t, e = Event.embedRequest EMBED_MODEL t := by
  induction blocks with
  | nil => intro e he; simp [build_points] at he
  | cons block rest ih =>
    intro e he
    simp only [build_points] at he
    cases h1 : pyIndexStr block "text" with
    | error er => simp only [h1] at he; simp at he
    | ok textVal =>
      simp only [h1] at he
      rw [get_embedding_pair svc textVal] at he
      cases h2 : (get_embedding svc textVal).1 with
      | error er =>
        simp only [h2] at he
        simp at he
        exact ⟨textVal, he⟩
      | ok embedding =>
        simp only [h2] at he
        cases h3 : pyIndexStr block "id" with
        | error er => simp only [h3] at he; simp at he; exact ⟨textVal, he⟩
        | ok idVal =>
          simp only [h3] at he
          cases h4 : pyIndexStr block "category" with
          | error er => simp only [h4] at he; simp at he; exact ⟨textVal, he⟩
          | ok catVal =>
            simp only [h4] at he
            cases h5 : build_points svc rest with
            | mk res evr =>
              simp only [h5] at he
              have hmem : e ∈ [Event.embedRequest EMBED_MODEL textVal] ++ evr := by
                cases res <;> simpa using he
              rcases List.mem_append.mp hmem with h | h
              · exact ⟨textVal, by simpa using h⟩
              · exact ih e (by rw [h5]; exact h)

/-- When the upload loop succeeds, every block was a readable three-field
record, every block text was embedded successfully, and every produced
point carries a vector that some successful embedding call returned. -/
theorem build_points_ok_inv (svc : EmbedSvc) (blocks : List Json) (ps : List Point)
    (evs : List Event) (h : build_points svc blocks = (Except.ok ps, evs)) :
    (∀ b ∈ blocks, blockFieldsOk b) ∧
    (∀ b ∈ blocks, ∀ t, pyIndexStr b "text" = Except.ok t →
       ∃ v, (get_embedding svc t).1 = Except.ok v) ∧
    (∀ p ∈ ps, ∃ t, (get_embedding svc t).1 = Except.ok p.vector) := by
  induction blocks generalizing ps evs with
  | nil =>
    simp only [build_points] at h
    have hps : ps = [] := by
      have := congrArg Prod.fst h
      simpa using this.symm
    subst hps
    simp
  | cons block rest ih =>
    simp only [build_points] at h
    cases h1 : pyIndexStr block "text" with
    | error er => simp only [h1] at h; simp at h
    | ok textVal =>
      simp only [h1] at h
      rw [get_embedding_pair svc textVal] at h
      cases h2 : (get_embedding svc textVal).1 with
      | error er => simp only [h2] at h; simp at h
      | ok embedding =>
        simp only [h2] at h
        cases h3 : pyIndexStr block "id" with
        | error er => simp only [h3] at h; simp at h
        | ok idVal =>
          simp only [h3] at h
          cases h4 : pyIndexStr block "category" with
          | error er => simp only [h4] at h; simp at h
          | ok catVal =>
            simp only [h4] at h
            cases h5 : build_points svc rest with
            | mk res evr =>
              simp only [h5] at h
              cases res with
              | error er => simp at h
              | ok ps' =>
                have hps : ps = ⟨some idVal, embedding,
                    [("text", textVal), ("category", catVal)]⟩ :: ps' := by
                  have := congrArg Prod.fst h
                  simp at this
                  exact this.symm
                obtain ⟨hshape, hembeds, hvecs⟩ := ih ps' evr h5
                subst hps
                refine ⟨?_, ?_, ?_⟩
                · intro b hb
                  rcases List.mem_cons.mp hb with hb | hb
                  · subst hb
                    exact ⟨⟨textVal, h1⟩, ⟨idVal, h3⟩, ⟨catVal, h4⟩⟩
                  · exact hshape b hb
                · intro b hb t ht
                  rcases List.mem_cons.mp hb with hb | hb
                  · subst hb
                    rw [h1] at ht
                    cases ht
                    exact ⟨embedding, h2⟩
                  · exact hembeds b hb t ht
                · intro p hp
                  rcases List.mem_cons.mp hp with hp | hp
                  · subst hp
                    exact ⟨textVal, h2⟩
                  · exact hvecs p hp

theorem networkCalls_append (a b : List Event) :
    networkCalls (a ++ b) = networkCalls a ++ networkCalls b := by
  simp [networkCalls, List.filter_append]

theorem networkCalls_print_cons (m : String) (l : List Event) :
    networkCalls (Event.print m :: l) = networkCalls l := rfl

theorem networkCalls_upsert_cons (name : String) (ps : List Point) (l : List Event) :
    networkCalls (Event.upsert name ps :: l) = Event.upsert name ps :: networkCalls l := rfl

theorem networkCalls_embed_map (bs : List Block) :
    networkCalls (bs.map (fun b => Event.embedRequest EMBED_MODEL b.text)) =
      bs.map (fun b => Event.embedRequest EMBED_MODEL b.text) := by
  induction bs with
  | nil => rfl
  | cons b rest ih =>
    simp only [List.map_cons]
    rw [show networkCalls (Event.embedRequest EMBED_MODEL b.text ::
          rest.map (fun b => Event.embedRequest EMBED_MODEL b.text)) =
        Event.embedRequest EMBED_MODEL b.text ::
          networkCalls (rest.map (fun b => Event.embedRequest EMBED_MODEL b.text)) from rfl, ih]

/-- A successful profile upload: collection creation attempt at size 768,
one embedding request per block in order, then the single bulk upsert of
one point per block, and the result is `true`. -/
theorem upload_profile_success (user_id : String) (fs : FS) (svc : EmbedSvc) (so : StoreOracle)
    (json_file : String) (bs : List Block) (emb : Json → Json)
    (hfile : fs json_file = FileContent.valid (Json.arr (bs.map Block.toJson)))
    (hemb : ∀ b ∈ bs, (get_embedding svc b.text).1 = Except.ok (emb b.text))
    (hupsert : so.upsertResult (get_collection_name user_id "profile")
        (bs.map (mkProfilePoint emb)) = Except.ok ()) :
    (upload_profile user_id fs svc so json_file).1 = true ∧
    networkCalls (upload_profile user_id fs svc so json_file).2 =
      Event.createCollection (get_collection_name user_id "profile") VECTOR_SIZE Distance.cosine ::
      (bs.map (fun b => Event.embedRequest EMBED_MODEL b.text) ++
       [Event.upsert (get_collection_name user_id "profile") (bs.map (mkProfilePoint emb))]) := by
  have hv : validate_json_file fs json_file = true := by
    simp [validate_json_file, hfile]
  have hload : load_blocks_from_json fs json_file =
      Except.ok (Json.arr (bs.map Block.toJson)) := by
    simp [load_blocks_from_json, hfile]
  have hbp := build_points_map svc emb bs hemb
  constructor
  · simp only [upload_profile, hv, if_true, hload, pyIter, hbp, hupsert]
  · simp only [upload_profile, hv, if_true, hload, pyIter, hbp, hupsert]
    rw [networkCalls_append, networkCalls_append, create_collection_net,
      networkCalls_embed_map, networkCalls_upsert_cons, networkCalls_print_cons]
    simp [networkCalls]

/-- Whenever `upload_profile` reports failure it has printed a message. -/
theorem upload_profile_false_print (user_id : String) (fs : FS) (svc : EmbedSvc)
    (so : StoreOracle) (json_file : String)
    (h : (upload_profile user_id fs svc so json_file).1 = false) :
    ∃ m, Event.print m ∈ (upload_profile user_id fs svc so json_file).2 := by
  by_cases hv : validate_json_file fs json_file
  · cases hl : load_blocks_from_json fs json_file with
    | error e =>
      exact ⟨"Error uploading profile: " ++ e, by simp [upload_profile, hv, hl]⟩
    | ok j =>
      cases hit : pyIter j with
      | error e =>
        exact ⟨"Error uploading profile: " ++ e, by simp [upload_profile, hv, hl, hit]⟩
      | ok blocks =>
        cases hbp : build_points svc blocks with
        | mk res ev2 =>
          cases res with
          | error e =>
            exact ⟨"Error uploading profile: " ++ e,
              by simp [upload_profile, hv, hl, hit, hbp]⟩
          | ok points =>
            cases hup : so.upsertResult (get_collection_name user_id "profile") points with
            | error e =>
              exact ⟨"Error uploading profile: " ++ e,
                by simp [upload_profile, hv, hl, hit, hbp, hup]⟩
            | ok u =>
              exfalso
              simp [upload_profile, hv, hl, hit, hbp, hup] at h
  · exact ⟨"Error: " ++ json_file ++ " is not a valid JSON-file.", by simp [upload_profile, hv]⟩

/-- Every event of an `upload_profile` run is the size-768 cosine creation
attempt of the profile collection, an embedding request, the bulk upsert of
points the loop built successfully from the blocks of the file, or a print. -/
theorem upload_profile_mem (user_id : String) (fs : FS) (svc : EmbedSvc) (so : StoreOracle)
    (json_file : String) (e : Event)
    (he : e ∈ (upload_profile user_id fs svc so json_file).2) :
    e = Event.createCollection (get_collection_name user_id "profile")
          VECTOR_SIZE Distance.cosine ∨
    (∃ t, e = Event.embedRequest EMBED_MODEL t) ∨
    (∃ ps j blocks evs, e = Event.upsert (get_collection_name user_id "profile") ps ∧
       fs json_file = FileContent.valid j ∧ pyIter j = Except.ok blocks ∧
       build_points svc blocks = (Except.ok ps, evs)) ∨
    (∃ m, e = Event.print m) := by
  by_cases hv : validate_json_file fs json_file
  · have hj : ∃ j, fs json_file = FileContent.valid j := by
      unfold validate_json_file at hv
      cases hfs : fs json_file with
      | valid j => exact ⟨j, rfl⟩
      | missing => rw [hfs] at hv; simp at hv
      | invalid => rw [hfs] at hv; simp at hv
    obtain ⟨j, hfs⟩ := hj
    have hl : load_blocks_from_json fs json_file = Except.ok j := by
      simp [load_blocks_from_json, hfs]
    cases hit : pyIter j with
    | error er =>
      simp only [upload_profile, hv, if_true, hl, hit] at he
      rcases List.mem_append.mp he with h | h
      · rcases create_collection_mem _ _ _ _ h with h | h
        · exact Or.inl h
        · exact Or.inr (Or.inr (Or.inr h))
      · exact Or.inr (Or.inr (Or.inr ⟨_, by simpa using h⟩))
    | ok blocks =>
      cases hbp : build_points svc blocks with
      | mk res ev2 =>
        have hev2 : ∀ x ∈ ev2, ∃ t, x = Event.embedRequest EMBED_MODEL t := by
          intro x hx
          exact build_points_events svc blocks x (by rw [hbp]; exact hx)
        cases res with
        | error er =>
          simp only [upload_profile, hv, if_true, hl, hit, hbp] at he
          rcases List.mem_append.mp he with h | h
          · rcases List.mem_append.mp h with h | h
            · rcases create_collection_mem _ _ _ _ h with h | h
              · exact Or.inl h
              · exact Or.inr (Or.inr (Or.inr h))
            · exact Or.inr (Or.inl (hev2 e h))
          · exact Or.inr (Or.inr (Or.inr ⟨_, by simpa using h⟩))
        | ok points =>
          cases hup : so.upsertResult (get_collection_name user_id "profile") points with
          | error er =>
            simp only [upload_profile, hv, if_true, hl, hit, hbp, hup] at he
            rcases List.mem_append.mp he with h | h
            · rcases List.mem_append.mp h with h | h
              · rcases create_collection_mem _ _ _ _ h with h | h
                · exact Or.inl h
                · exact Or.inr (Or.inr (Or.inr h))
              · exact Or.inr (Or.inl (hev2 e h))
            · rcases List.mem_cons.mp h with h | h
              · exact Or.inr (Or.inr (Or.inl ⟨points, j, blocks, ev2, h, hfs, hit, hbp⟩))
              · exact Or.inr (Or.inr (Or.inr ⟨_, by simpa using h⟩))
          | ok u =>
            simp only [upload_profile, hv, if_true, hl, hit, hbp, hup] at he
            rcases List.mem_append.mp he with h | h
            · rcases List.mem_append.mp h with h | h
              · rcases create_collection_mem _ _ _ _ h with h | h
                · exact Or.inl h
                · exact Or.inr (Or.inr (Or.inr h))
              · exact Or.inr (Or.inl (hev2 e h))
            · rcases List.mem_cons.mp h with h | h
              · exact Or.inr (Or.inr (Or.inl ⟨points, j, blocks, ev2, h, hfs, hit, hbp⟩))
              · exact Or.inr (Or.inr (Or.inr ⟨_, by simpa using h⟩))
  · simp only [upload_profile, hv, if_false] at he
    exact Or.inr (Or.inr (Or.inr ⟨_, by simpa using he⟩))

/-- When some block of the file has a readable text whose embedding call
fails, the upload aborts: it returns `false`, performs no upsert at all,
and prints a message. -/
theorem upload_profile_embed_failure (user_id : String) (fs : FS) (svc : EmbedSvc)
    (so : StoreOracle) (json_file : String) (j : Json) (blocks : List Json)
    (hfile : fs json_file = FileContent.valid j)
    (hiter : pyIter j = Except.ok blocks)
    (hfail : ∃ b ∈ blocks, ∃ t, pyIndexStr b "text" = Except.ok t ∧
       ∃ er, (get_embedding svc t).1 = Except.error er) :
    (upload_profile user_id fs svc so json_file).1 = false ∧
    (∀ name ps, Event.upsert name ps ∉ (upload_profile user_id fs svc so json_file).2) ∧
    (∃ m, Event.print m ∈ (upload_profile user_id fs svc so json_file).2) := by
  have hv : validate_json_file fs json_file = true := by
    simp [validate_json_file, hfile]
  have hl : load_blocks_from_json fs json_file = Except.ok j := by
    simp [load_blocks_from_json, hfile]
  cases hbp : build_points svc blocks with
  | mk res ev2 =>
    cases res with
    | ok points =>
      exfalso
      obtain ⟨b, hb, t, ht, er, her⟩ := hfail
      obtain ⟨_, hembeds, _⟩ := build_points_ok_inv svc blocks points ev2 hbp
      obtain ⟨v, hok⟩ := hembeds b hb t ht
      rw [hok] at her
      cases her
    | error er =>
      have hev2 : ∀ x ∈ ev2, ∃ t, x = Event.embedRequest EMBED_MODEL t := by
        intro x hx
        exact build_points_events svc blocks x (by rw [hbp]; exact hx)
      refine ⟨by simp [upload_profile, hv, hl, hiter, hbp], ?_, ?_⟩
      · intro name ps hmem
        simp only [upload_profile, hv, if_true, hl, hiter, hbp] at hmem
        rcases List.mem_append.mp hmem with h | h
        · rcases List.mem_append.mp h with h | h
          · rcases create_collection_mem _ _ _ _ h with h | ⟨m, h⟩ <;> simp at h
          · obtain ⟨t, h⟩ := hev2 _ h
            simp at h
        · simp at h
      · exact ⟨"Error uploading profile: " ++ er,
          by simp [upload_profile, hv, hl, hiter, hbp]⟩

/-- A successful `add_conversation` run: one embedding request for the
space-joined messages, then one upsert of the single id-less point. -/
theorem add_conversation_success (user_id now u a : String) (svc : EmbedSvc) (so : StoreOracle)
    (v : Json)
    (hemb : (get_embedding svc (Json.str (u ++ " " ++ a))).1 = Except.ok v)
    (hup : so.upsertResult (get_collection_name user_id "conversations")
        [mkConvPoint v now u a] = Except.ok ()) :
    (add_conversation user_id svc so now u a).1 = true ∧
    networkCalls (add_conversation user_id svc so now u a).2 =
      [Event.embedRequest EMBED_MODEL (Json.str (u ++ " " ++ a)),
       Event.upsert (get_collection_name user_id "conversations") [mkConvPoint v now u a]] := by
  have hpair := get_embedding_pair svc (Json.str (u ++ " " ++ a))
  rw [hemb] at hpair
  have hup' : so.upsertResult (get_collection_name user_id "conversations")
      [⟨none, v,
        [("type", Json.str "conversation"), ("user_message", Json.str u),
         ("assistant_response", Json.str a), ("timestamp", Json.str now)]⟩] =
      Except.ok () := hup
  constructor
  · simp [add_conversation, hpair, hup']
  · simp only [add_conversation, hpair, hup']
    simp [networkCalls, isNetworkCall, mkConvPoint]

/-- Every event of `add_conversation` is an embedding request, the upsert
of the one conversation point built from a successful embedding, or a
print; in particular it creates no collection. -/
theorem add_conversation_mem (user_id now u a : String) (svc : EmbedSvc) (so : StoreOracle)
    (e : Event) (he : e ∈ (add_conversation user_id svc so now u a).2) :
    (∃ t, e = Event.embedRequest EMBED_MODEL t) ∨
    (∃ v, e = Event.upsert (get_collection_name user_id "conversations")
            [mkConvPoint v now u a] ∧
       (get_embedding svc (Json.str (u ++ " " ++ a))).1 = Except.ok v) ∨
    (∃ m, e = Event.print m) := by
  have hpair := get_embedding_pair svc (Json.str (u ++ " " ++ a))
  cases hge : (get_embedding svc (Json.str (u ++ " " ++ a))).1 with
  | error er =>
    rw [hge] at hpair
    simp only [add_conversation, hpair] at he
    rcases List.mem_append.mp he with h | h
    · exact Or.inl ⟨_, by simpa using h⟩
    · exact Or.inr (Or.inr ⟨_, by simpa using h⟩)
  | ok v =>
    rw [hge] at hpair
    cases hup : so.upsertResult (get_collection_name user_id "conversations")
        [⟨none, v,
          [("type", Json.str "conversation"), ("user_message", Json.str u),
           ("assistant_response", Json.str a), ("timestamp", Json.str now)]⟩] with
    | error er =>
      simp only [add_conversation, hpair, hup] at he
      rcases List.mem_append.mp he with h | h
      · exact Or.inl ⟨_, by simpa using h⟩
      · rcases List.mem_cons.mp h with h | h
        · exact Or.inr (Or.inl ⟨v, by simpa [mkConvPoint] using h, rfl⟩)
        · exact Or.inr (Or.inr ⟨_, by simpa using h⟩)
    | ok uu =>
      simp only [add_conversation, hpair, hup] at he
      rcases List.mem_append.mp he with h | h
      · exact Or.inl ⟨_, by simpa using h⟩
      · rcases List.mem_cons.mp h with h | h
        · exact Or.inr (Or.inl ⟨v, by simpa [mkConvPoint] using h, rfl⟩)
        · exact Or.inr (Or.inr ⟨_, by simpa using h⟩)

/-- Whenever `add_conversation` reports failure it has printed a message. -/
theorem add_conversation_false_print (user_id now u a : String) (svc : EmbedSvc)
    (so : StoreOracle) (h : (add_conversation user_id svc so now u a).1 = false) :
    ∃ m, Event.print m ∈ (add_conversation user_id svc so now u a).2 := by
  have hpair := get_embedding_pair svc (Json.str (u ++ " " ++ a))
  cases hge : (get_embedding svc (Json.str (u ++ " " ++ a))).1 with
  | error er =>
    rw [hge] at hpair
    exact ⟨"Error adding conversation: " ++ er, by simp [add_conversation, hpair]⟩
  | ok v =>
    rw [hge] at hpair
    cases hup : so.upsertResult (get_collection_name user_id "conversations")
        [⟨none, v,
          [("type", Json.str "conversation"), ("user_message", Json.str u),
           ("assistant_response", Json.str a), ("timestamp", Json.str now)]⟩] with
    | error er =>
      exact ⟨"Error adding conversation: " ++ er, by simp [add_conversation, hpair, hup]⟩
    | ok uu =>
      exfalso
      simp [add_conversation, hpair, hup] at h

/-- `setup_conversation_collection` succeeds exactly when the collection
info query succeeds, regardless of whether creation raised. -/
theorem setup_conversation_result (user_id : String) (so : StoreOracle) :
    (setup_conversation_collection user_id so).1 = true ↔
      ∃ n, so.getCollectionResult (get_collection_name user_id "conversations") =
        Except.ok n := by
  cases hg : so.getCollectionResult (get_collection_name user_id "conversations") with
  | error er =>
    simp only [setup_conversation_collection, hg]
    simp
  | ok n =>
    simp only [setup_conversation_collection, hg]
    simp

/-- Whenever `setup_conversation_collection` fails it has printed a message. -/
theorem setup_conversation_false_print (user_id : String) (so : StoreOracle)
    (h : (setup_conversation_collection user_id so).1 = false) :
    ∃ m, Event.print m ∈ (setup_conversation_collection user_id so).2 := by
  cases hg : so.getCollectionResult (get_collection_name user_id "conversations") with
  | error er =>
    exact ⟨"error creating collection " ++ get_collection_name user_id "conversations"
      ++ ": " ++ er, by simp [setup_conversation_collection, hg]⟩
  | ok n =>
    exfalso
    simp [setup_conversation_collection, hg] at h

/-- Every event of `setup_conversation_collection` is the size-768 cosine
creation attempt, the info query, or a print. -/
theorem setup_conversation_mem (user_id : String) (so : StoreOracle) (e : Event)
    (he : e ∈ (setup_conversation_collection user_id so).2) :
    e = Event.createCollection (get_collection_name user_id "conversations")
          VECTOR_SIZE Distance.cosine ∨
    e = Event.getCollection (get_collection_name user_id "conversations") ∨
    (∃ m, e = Event.print m) := by
  cases hg : so.getCollectionResult (get_collection_name user_id "conversations") with
  | error er =>
    simp only [setup_conversation_collection, hg] at he
    rcases List.mem_append.mp he with h | h
    · rcases create_collection_mem _ _ _ _ h with h | h
      · exact Or.inl h
      · exact Or.inr (Or.inr h)
    · rcases List.mem_cons.mp h with h | h
      · exact Or.inr (Or.inl h)
      · exact Or.inr (Or.inr ⟨_, by simpa using h⟩)
  | ok n =>
    simp only [setup_conversation_collection, hg] at he
    rcases List.mem_append.mp he with h | h
    · rcases create_collection_mem _ _ _ _ h with h | h
      · exact Or.inl h
      · exact Or.inr (Or.inr h)
    · rcases List.mem_cons.mp h with h | h
      · exact Or.inr (Or.inl h)
      · exact Or.inr (Or.inr ⟨_, by simpa using h⟩)

/-- `search_similar` returns either the empty list or exactly the list a
successful store search returned for the successfully embedded query. -/
theorem search_similar_result (user_id ct q : String) (lim : Nat) (svc : EmbedSvc)
    (so : StoreOracle) :
    (search_similar user_id svc so ct q lim).1 = [] ∨
    ∃ v rs, (get_embedding svc (Json.str q)).1 = Except.ok v ∧
      so.searchResult (get_collection_name user_id ct) v lim = Except.ok rs ∧
      (search_similar user_id svc so ct q lim).1 = rs := by
  have hpair := get_embedding_pair svc (Json.str q)
  cases hge : (get_embedding svc (Json.str q)).1 with
  | error er =>
    rw [hge] at hpair
    exact Or.inl (by simp [search_similar, hpair])
  | ok v =>
    rw [hge] at hpair
    cases hs : so.searchResult (get_collection_name user_id ct) v lim with
    | error er => exact Or.inl (by simp [search_similar, hpair, hs])
    | ok rs => exact Or.inr ⟨v, rs, rfl, hs, by simp [search_similar, hpair, hs]⟩

/-- Whenever `search_similar` hits a failure (embedding or store), it
returns the empty list and prints a message. -/
theorem search_similar_failure (user_id ct q : String) (lim : Nat) (svc : EmbedSvc)
    (so : StoreOracle)
    (h : (∃ er, (get_embedding svc (Json.str q)).1 = Except.error er) ∨
         (∃ v er, (get_embedding svc (Json.str q)).1 = Except.ok v ∧
            so.searchResult (get_collection_name user_id ct) v lim = Except.error er)) :
    (search_similar user_id svc so ct q lim).1 = [] ∧
    ∃ m, Event.print m ∈ (search_similar user_id svc so ct q lim).2 := by
  have hpair := get_embedding_pair svc (Json.str q)
  rcases h with ⟨er, hge⟩ | ⟨v, er, hge, hs⟩
  · rw [hge] at hpair
    exact ⟨by simp [search_similar, hpair],
      "Error searching: " ++ er, by simp [search_similar, hpair]⟩
  · rw [hge] at hpair
    exact ⟨by simp [search_similar, hpair, hs],
      "Error searching: " ++ er, by simp [search_similar, hpair, hs]⟩

/-- C1: for every invocation of the upload path with a file that is missing
or is not valid JSON, the command reports failure (returns false, so the
process exits 1) and performs no network call at all — neither to the
embedding service nor to the vector store. -/
theorem C1_invalid_file_fails_without_network (user_id : String) (fs : FS) (svc : EmbedSvc)
    (so : StoreOracle) (json_file : String)
    (h : fs json_file = FileContent.missing ∨ fs json_file = FileContent.invalid) :
    (upload_profile_command user_id fs svc so json_file).1 = false ∧
    networkCalls (upload_profile_command user_id fs svc so json_file).2 = [] ∧
    (main_upload (Except.ok ()) user_id fs svc so json_file).1 = 1 ∧
    networkCalls (main_upload (Except.ok ()) user_id fs svc so json_file).2 = [] := by
  rcases h with h | h <;>
    simp [upload_profile_command, main_upload, os_path_exists, validate_json_file,
      networkCalls, isNetworkCall, h]

/-- C1 witness: a concrete run against a filesystem with no files. -/
theorem C1_witness :
    (emptyFS "profile.json" = FileContent.missing ∨
     emptyFS "profile.json" = FileContent.invalid) ∧
    ((upload_profile_command "nana" emptyFS noEmbed okStore "profile.json").1 = false ∧
     networkCalls (upload_profile_command "nana" emptyFS noEmbed okStore "profile.json").2 = [] ∧
     (main_upload (Except.ok ()) "nana" emptyFS noEmbed okStore "profile.json").1 = 1 ∧
     networkCalls (main_upload (Except.ok ()) "nana" emptyFS noEmbed okStore "profile.json").2
       = []) :=
  ⟨Or.inl rfl, C1_invalid_file_fails_without_network "nana" emptyFS noEmbed okStore
    "profile.json" (Or.inl rfl)⟩

/-- C7 counterexample: a response body that is a JSON list (valid JSON, no
embedding field) does not produce the normalized unexpected-response
failure — get_embedding surfaces the raw TypeError of the list subscript
unchanged, so a failure mode exists that is neither of the two normalized
descriptive failures. -/
theorem C7_counterexample :
    listBodySvc (Json.str "query") = HttpResult.response (Json.arr []) ∧
    Json.getField (Json.arr []) "embedding" = none ∧
    (get_embedding listBodySvc (Json.str "query")).1 =
      Except.error "TypeError: list indices must be integers" ∧
    (get_embedding listBodySvc (Json.str "query")).1 ≠
      Except.error "Unexpected Ollama API response" ∧
    (get_embedding listBodySvc (Json.str "query")).1 =
      pyIndexStr (Json.arr []) "embedding" := by
  refine ⟨rfl, rfl, rfl, ?_, rfl⟩
  intro h
  injection h with h1
  exact absurd h1 (by decide)

/-- C7 (amended): for every text, get_embedding returns the embedding
field of a dict response body or fails; a transport error and a dict
response missing the field are each normalized into one descriptive
failure, but a response body that is not a dict is a third failure mode
that is not normalized: the raw TypeError of the subscript escapes the
handlers unchanged (only the callers' generic catch-alls stop it). -/
theorem C7_get_embedding_normalized (svc : EmbedSvc) (t : Json) :
    (∃ body v, svc t = HttpResult.response body ∧
       Json.getField body "embedding" = some v ∧
       (get_embedding svc t).1 = Except.ok v) ∨
    (∃ er, svc t = HttpResult.transportError er ∧
       (get_embedding svc t).1 = Except.error ("Ollama API Error: " ++ er)) ∨
    (∃ fields, svc t = HttpResult.response (Json.obj fields) ∧
       lookupField fields "embedding" = none ∧
       (get_embedding svc t).1 = Except.error "Unexpected Ollama API response") ∨
    (∃ body, svc t = HttpResult.response body ∧ Json.isObj body = false ∧
       (∃ er, pyIndexStr body "embedding" = Except.error er) ∧
       (get_embedding svc t).1 = pyIndexStr body "embedding") := by
  cases hsvc : svc t with
  | transportError er =>
    exact Or.inr (Or.inl ⟨er, rfl, by simp [get_embedding, hsvc]⟩)
  | response body =>
    cases body with
    | obj fields =>
      cases hf : lookupField fields "embedding" with
      | some v =>
        exact Or.inl ⟨Json.obj fields, v, rfl, hf, by simp [get_embedding, hsvc, hf]⟩
      | none =>
        exact Or.inr (Or.inr (Or.inl ⟨fields, rfl, hf,
          by simp [get_embedding, hsvc, hf]⟩))
    | null =>
      exact Or.inr (Or.inr (Or.inr ⟨Json.null, rfl, rfl,
        ⟨"TypeError: object is not subscriptable", rfl⟩, by simp [get_embedding, hsvc]⟩))
    | bool b =>
      exact Or.inr (Or.inr (Or.inr ⟨Json.bool b, rfl, rfl,
        ⟨"TypeError: object is not subscriptable", rfl⟩, by simp [get_embedding, hsvc]⟩))
    | num n =>
      exact Or.inr (Or.inr (Or.inr ⟨Json.num n, rfl, rfl,
        ⟨"TypeError: object is not subscriptable", rfl⟩, by simp [get_embedding, hsvc]⟩))
    | str s =>
      exact Or.inr (Or.inr (Or.inr ⟨Json.str s, rfl, rfl,
        ⟨"TypeError: string indices must be integers", rfl⟩, by simp [get_embedding, hsvc]⟩))
    | arr items =>
      exact Or.inr (Or.inr (Or.inr ⟨Json.arr items, rfl, rfl,
        ⟨"TypeError: list indices must be integers", rfl⟩, by simp [get_embedding, hsvc]⟩))

/-- C10: the derived collection name is the user id, an underscore and the
base name; in particular for user nana and base profile it is
nana_profile. -/
theorem C10_collection_name (user_id base_name : String) :
    get_collection_name user_id base_name = user_id ++ "_" ++ base_name ∧
    get_collection_name "nana" "profile" = "nana_profile" :=
  ⟨rfl, by decide⟩

/-- C2: for a valid profile file of N blocks, a successful upload calls the
embedding client once per block, sequentially and unbatched, then performs
a single bulk upsert of exactly N points — one per block — into the
collection {user_id}_profile, each point carrying the block's id and a
payload with its text and category. -/
theorem C2_upload_one_point_per_block (user_id : String) (fs : FS) (svc : EmbedSvc)
    (so : StoreOracle) (json_file : String) (bs : List Block) (emb : Json → Json)
    (hfile : fs json_file = FileContent.valid (Json.arr (bs.map Block.toJson)))
    (hemb : ∀ b ∈ bs, (get_embedding svc b.text).1 = Except.ok (emb b.text))
    (hupsert : so.upsertResult (get_collection_name user_id "profile")
        (bs.map (mkProfilePoint emb)) = Except.ok ()) :
    (upload_profile user_id fs svc so json_file).1 = true ∧
    networkCalls (upload_profile user_id fs svc so json_file).2 =
      Event.createCollection (get_collection_name user_id "profile")
        VECTOR_SIZE Distance.cosine ::
      (bs.map (fun b => Event.embedRequest EMBED_MODEL b.text) ++
       [Event.upsert (get_collection_name user_id "profile")
          (bs.map (mkProfilePoint emb))]) ∧
    (bs.map (mkProfilePoint emb)).length = bs.length ∧
    ∀ b ∈ bs, mkProfilePoint emb b =
      ⟨some b.id, emb b.text, [("text", b.text), ("category", b.category)]⟩ := by
  obtain ⟨h1, h2⟩ :=
    upload_profile_success user_id fs svc so json_file bs emb hfile hemb hupsert
  exact ⟨h1, h2, by simp, fun b hb => rfl⟩

/-- C2 witness: a concrete one-block profile uploaded against an all-ok
store and a service answering a fixed 768-long embedding. -/
theorem C2_witness :
    (upload_profile "nana" sampleFS sampleSvc okStore "profile.json").1 = true ∧
    networkCalls (upload_profile "nana" sampleFS sampleSvc okStore "profile.json").2 =
      Event.createCollection (get_collection_name "nana" "profile")
        VECTOR_SIZE Distance.cosine ::
      ([sampleBlock].map (fun b => Event.embedRequest EMBED_MODEL b.text) ++
       [Event.upsert (get_collection_name "nana" "profile")
          ([sampleBlock].map (mkProfilePoint sampleEmb))]) ∧
    ([sampleBlock].map (mkProfilePoint sampleEmb)).length = [sampleBlock].length ∧
    ∀ b ∈ [sampleBlock], mkProfilePoint sampleEmb b =
      ⟨some b.id, sampleEmb b.text, [("text", b.text), ("category", b.category)]⟩ :=
  C2_upload_one_point_per_block "nana" sampleFS sampleSvc okStore "profile.json"
    [sampleBlock] sampleEmb rfl
    (by
      intro b hb
      simp only [List.mem_singleton] at hb
      subst hb
      simp [get_embedding, sampleSvc, goodSvc, Json.getField, lookupField, sampleEmb])
    rfl

/-- C4: if the embedding call fails for some block, the upload aborts
before the bulk upsert — no upsert call is made at all — `upload_profile`
returns false, and the failure is reported with a printed message rather
than an escaping exception. -/
theorem C4_embed_failure_aborts (user_id : String) (fs : FS) (svc : EmbedSvc)
    (so : StoreOracle) (json_file : String) (j : Json) (blocks : List Json)
    (hfile : fs json_file = FileContent.valid j)
    (hiter : pyIter j = Except.ok blocks)
    (hfail : ∃ b ∈ blocks, ∃ t, pyIndexStr b "text" = Except.ok t ∧
       ∃ er, (get_embedding svc t).1 = Except.error er) :
    (upload_profile user_id fs svc so json_file).1 = false ∧
    (∀ name ps, Event.upsert name ps ∉ (upload_profile user_id fs svc so json_file).2) ∧
    (∃ m, Event.print m ∈ (upload_profile user_id fs svc so json_file).2) :=
  upload_profile_embed_failure user_id fs svc so json_file j blocks hfile hiter hfail

/-- C4 witness: a concrete one-block profile uploaded while the embedding
service is down. -/
theorem C4_witness :
    (upload_profile "nana" sampleFS noEmbed okStore "profile.json").1 = false ∧
    (∀ name ps,
      Event.upsert name ps ∉ (upload_profile "nana" sampleFS noEmbed okStore "profile.json").2) ∧
    (∃ m, Event.print m ∈ (upload_profile "nana" sampleFS noEmbed okStore "profile.json").2) :=
  C4_embed_failure_aborts "nana" sampleFS noEmbed okStore "profile.json"
    (Json.arr ([sampleBlock].map Block.toJson)) ([sampleBlock].map Block.toJson) rfl rfl
    ⟨sampleBlock.toJson, by simp, sampleBlock.text, pyIndex_block_text sampleBlock,
     "Ollama API Error: " ++ "connection refused", rfl⟩

/-- C8: `add_conversation` builds exactly one point, whose vector is the
embedding of the space-joined concatenation of the two messages, whose
payload holds the user message, the assistant response and a timestamp,
and which carries no explicit id. -/
theorem C8_add_conversation_point (user_id now u a : String) (svc : EmbedSvc)
    (so : StoreOracle) (v : Json)
    (hemb : (get_embedding svc (Json.str (u ++ " " ++ a))).1 = Except.ok v)
    (hup : so.upsertResult (get_collection_name user_id "conversations")
        [mkConvPoint v now u a] = Except.ok ()) :
    (add_conversation user_id svc so now u a).1 = true ∧
    networkCalls (add_conversation user_id svc so now u a).2 =
      [Event.embedRequest EMBED_MODEL (Json.str (u ++ " " ++ a)),
       Event.upsert (get_collection_name user_id "conversations")
         [mkConvPoint v now u a]] ∧
    (mkConvPoint v now u a).id = none ∧
    (mkConvPoint v now u a).vector = v ∧
    (mkConvPoint v now u a).payload =
      [("type", Json.str "conversation"), ("user_message", Json.str u),
       ("assistant_response", Json.str a), ("timestamp", Json.str now)] := by
  obtain ⟨h1, h2⟩ := add_conversation_success user_id now u a svc so v hemb hup
  exact ⟨h1, h2, rfl, rfl, rfl⟩

/-- C8 witness: a concrete conversation pair recorded against an all-ok
store. -/
theorem C8_witness :
    (add_conversation "nana" sampleSvc okStore "t0" "hi" "hello").1 = true ∧
    networkCalls (add_conversation "nana" sampleSvc okStore "t0" "hi" "hello").2 =
      [Event.embedRequest EMBED_MODEL (Json.str ("hi" ++ " " ++ "hello")),
       Event.upsert (get_collection_name "nana" "conversations")
         [mkConvPoint embedVec768 "t0" "hi" "hello"]] ∧
    (mkConvPoint embedVec768 "t0" "hi" "hello").id = none ∧
    (mkConvPoint embedVec768 "t0" "hi" "hello").vector = embedVec768 ∧
    (mkConvPoint embedVec768 "t0" "hi" "hello").payload =
      [("type", Json.str "conversation"), ("user_message", Json.str "hi"),
       ("assistant_response", Json.str "hello"), ("timestamp", Json.str "t0")] :=
  C8_add_conversation_point "nana" "t0" "hi" "hello" sampleSvc okStore embedVec768
    (by simp [get_embedding, sampleSvc, goodSvc, Json.getField, lookupField]) rfl

/-- C3: every collection-creation call any operation makes uses vector
size 768 and cosine distance, and — provided the embedding service honours
its 768-dimension contract — every point either write path (profile upload
or conversation add) sends to the store carries a 768-dimensional vector;
`add_conversation` creates no collection at all. -/
theorem C3_vector_size_invariant (user_id : String) (fs : FS) (svc : EmbedSvc)
    (so : StoreOracle) (json_file now u a : String)
    (hsvc : ∀ t v, (get_embedding svc t).1 = Except.ok v → vec768 v) :
    (∀ n s d, Event.createCollection n s d ∈ (upload_profile user_id fs svc so json_file).2 →
       s = VECTOR_SIZE ∧ d = Distance.cosine) ∧
    (∀ n s d, Event.createCollection n s d ∈ (setup_conversation_collection user_id so).2 →
       s = VECTOR_SIZE ∧ d = Distance.cosine) ∧
    (∀ n s d, Event.createCollection n s d ∉ (add_conversation user_id svc so now u a).2) ∧
    (∀ name ps, Event.upsert name ps ∈ (upload_profile user_id fs svc so json_file).2 →
       ∀ p ∈ ps, vec768 p.vector) ∧
    (∀ name ps, Event.upsert name ps ∈ (add_conversation user_id svc so now u a).2 →
       ∀ p ∈ ps, vec768 p.vector) := by
  refine ⟨?_, ?_, ?_, ?_, ?_⟩
  · intro n s d hmem
    rcases upload_profile_mem user_id fs svc so json_file _ hmem with
      h | ⟨t, h⟩ | ⟨ps, j, blocks, evs, h, -, -, -⟩ | ⟨m, h⟩
    · injection h with h1 h2 h3
      exact ⟨h2, h3⟩
    · exact Event.noConfusion h
    · exact Event.noConfusion h
    · exact Event.noConfusion h
  · intro n s d hmem
    rcases setup_conversation_mem user_id so _ hmem with h | h | ⟨m, h⟩
    · injection h with h1 h2 h3
      exact ⟨h2, h3⟩
    · exact Event.noConfusion h
    · exact Event.noConfusion h
  · intro n s d hmem
    rcases add_conversation_mem user_id now u a svc so _ hmem with ⟨t, h⟩ | ⟨v, h, -⟩ | ⟨m, h⟩
    · exact Event.noConfusion h
    · exact Event.noConfusion h
    · exact Event.noConfusion h
  · intro name ps hmem p hp
    rcases upload_profile_mem user_id fs svc so json_file _ hmem with
      h | ⟨t, h⟩ | ⟨ps2, j, blocks, evs, h, -, -, hbp⟩ | ⟨m, h⟩
    · exact Event.noConfusion h
    · exact Event.noConfusion h
    · injection h with h1 h2
      subst h2
      obtain ⟨-, -, hvecs⟩ := build_points_ok_inv svc blocks ps evs hbp
      obtain ⟨t, hok⟩ := hvecs p hp
      exact hsvc t p.vector hok
    · exact Event.noConfusion h
  · intro name ps hmem p hp
    rcases add_conversation_mem user_id now u a svc so _ hmem with
      ⟨t, h⟩ | ⟨v, h, hge⟩ | ⟨m, h⟩
    · exact Event.noConfusion h
    · injection h with h1 h2
      subst h2
      simp only [List.mem_singleton] at hp
      subst hp
      exact hsvc (Json.str (u ++ " " ++ a)) v hge
    · exact Event.noConfusion h

/-- C3 witness: the concrete 768-honouring embedding service, on a
concrete profile upload and conversation add. -/
theorem C3_witness :
    (∀ n s d, Event.createCollection n s d
        ∈ (upload_profile "nana" sampleFS sampleSvc okStore "profile.json").2 →
       s = VECTOR_SIZE ∧ d = Distance.cosine) ∧
    (∀ n s d, Event.createCollection n s d ∈ (setup_conversation_collection "nana" okStore).2 →
       s = VECTOR_SIZE ∧ d = Distance.cosine) ∧
    (∀ n s d, Event.createCollection n s d
        ∉ (add_conversation "nana" sampleSvc okStore "t0" "hi" "hello").2) ∧
    (∀ name ps, Event.upsert name ps
        ∈ (upload_profile "nana" sampleFS sampleSvc okStore "profile.json").2 →
       ∀ p ∈ ps, vec768 p.vector) ∧
    (∀ name ps, Event.upsert name ps
        ∈ (add_conversation "nana" sampleSvc okStore "t0" "hi" "hello").2 →
       ∀ p ∈ ps, vec768 p.vector) :=
  C3_vector_size_invariant "nana" sampleFS sampleSvc okStore "profile.json" "t0" "hi" "hello"
    (by
      intro t v h
      have hc : (get_embedding sampleSvc t).1 = Except.ok embedVec768 := rfl
      rw [hc] at h
      injection h with h2
      subst h2
      exact ⟨List.replicate 768 (Json.num 0), rfl, List.length_replicate 768 (Json.num 0)⟩)

/-- C5: each vector-store client operation converts every failure into a
boolean result (an empty list for search) with a printed message, never an
escaping exception; only a store-connection failure at startup is fatal,
exiting 1 before any network call. -/
theorem C5_errors_to_boolean (user_id : String) (fs : FS) (svc : EmbedSvc) (so : StoreOracle)
    (json_file now u a ct q ce : String) (lim : Nat) :
    ((upload_profile user_id fs svc so json_file).1 = false →
       ∃ m, Event.print m ∈ (upload_profile user_id fs svc so json_file).2) ∧
    ((setup_conversation_collection user_id so).1 = false →
       ∃ m, Event.print m ∈ (setup_conversation_collection user_id so).2) ∧
    ((add_conversation user_id svc so now u a).1 = false →
       ∃ m, Event.print m ∈ (add_conversation user_id svc so now u a).2) ∧
    ((∃ v rs, (get_embedding svc (Json.str q)).1 = Except.ok v ∧
        so.searchResult (get_collection_name user_id ct) v lim = Except.ok rs ∧
        (search_similar user_id svc so ct q lim).1 = rs) ∨
     ((search_similar user_id svc so ct q lim).1 = [] ∧
      ∃ m, Event.print m ∈ (search_similar user_id svc so ct q lim).2)) ∧
    ((main_upload (Except.error ce) user_id fs svc so json_file).1 = 1 ∧
     networkCalls (main_upload (Except.error ce) user_id fs svc so json_file).2 = []) := by
  refine ⟨upload_profile_false_print user_id fs svc so json_file,
    setup_conversation_false_print user_id so,
    add_conversation_false_print user_id now u a svc so, ?_, rfl, rfl⟩
  cases hge : (get_embedding svc (Json.str q)).1 with
  | error er =>
    exact Or.inr (search_similar_failure user_id ct q lim svc so (Or.inl ⟨er, hge⟩))
  | ok v =>
    cases hs : so.searchResult (get_collection_name user_id ct) v lim with
    | error er =>
      exact Or.inr (search_similar_failure user_id ct q lim svc so (Or.inr ⟨v, er, hge, hs⟩))
    | ok rs =>
      refine Or.inl ⟨v, rs, rfl, hs, ?_⟩
      have hpair := get_embedding_pair svc (Json.str q)
      rw [hge] at hpair
      simp [search_similar, hpair, hs]

/-- C5 witness: concrete failing runs (no files, embedding service and
store both down) for each operation. -/
theorem C5_witness :
    (∃ m, Event.print m ∈ (upload_profile "nana" emptyFS noEmbed downStore "profile.json").2) ∧
    (∃ m, Event.print m ∈ (setup_conversation_collection "nana" downStore).2) ∧
    (∃ m, Event.print m ∈ (add_conversation "nana" noEmbed downStore "t0" "hi" "hello").2) ∧
    ((∃ v rs, (get_embedding noEmbed (Json.str "query")).1 = Except.ok v ∧
        downStore.searchResult (get_collection_name "nana" "profile") v 3 = Except.ok rs ∧
        (search_similar "nana" noEmbed downStore "profile" "query" 3).1 = rs) ∨
     ((search_similar "nana" noEmbed downStore "profile" "query" 3).1 = [] ∧
      ∃ m, Event.print m ∈ (search_similar "nana" noEmbed downStore "profile" "query" 3).2)) ∧
    ((main_upload (Except.error "refused") "nana" emptyFS noEmbed downStore "profile.json").1
        = 1 ∧
     networkCalls
       (main_upload (Except.error "refused") "nana" emptyFS noEmbed downStore "profile.json").2
        = []) := by
  have h := C5_errors_to_boolean "nana" emptyFS noEmbed downStore "profile.json" "t0" "hi"
    "hello" "profile" "query" "refused" 3
  exact ⟨h.1 rfl, h.2.1 rfl, h.2.2.1 rfl, h.2.2.2.1, h.2.2.2.2⟩

/-- C6: when creation raises because the collection already exists,
`create_collection` just returns false; setup still succeeds, a repeated
upload still succeeds, and the repeated upload writes through a single
upsert whose points carry the blocks' ids (so the store overwrites by id). -/
theorem C6_idempotent_creation (user_id : String) (fs : FS) (svc : EmbedSvc)
    (so : StoreOracle) (json_file : String) (bs : List Block) (emb : Json → Json)
    (n : Nat) (e1 e2 : String)
    (hc1 : so.createResult (get_collection_name user_id "profile") VECTOR_SIZE Distance.cosine
       = Except.error e1)
    (_hc2 : so.createResult (get_collection_name user_id "conversations") VECTOR_SIZE
       Distance.cosine = Except.error e2)
    (hget : so.getCollectionResult (get_collection_name user_id "conversations") = Except.ok n)
    (hfile : fs json_file = FileContent.valid (Json.arr (bs.map Block.toJson)))
    (hemb : ∀ b ∈ bs, (get_embedding svc b.text).1 = Except.ok (emb b.text))
    (hupsert : so.upsertResult (get_collection_name user_id "profile")
        (bs.map (mkProfilePoint emb)) = Except.ok ()) :
    (create_collection so (get_collection_name user_id "profile") VECTOR_SIZE).1 = false ∧
    (setup_conversation_collection user_id so).1 = true ∧
    (upload_profile user_id fs svc so json_file).1 = true ∧
    Event.upsert (get_collection_name user_id "profile") (bs.map (mkProfilePoint emb))
      ∈ (upload_profile user_id fs svc so json_file).2 ∧
    (bs.map (mkProfilePoint emb)).map Point.id = bs.map (fun b => some b.id) := by
  obtain ⟨h1, h2⟩ :=
    upload_profile_success user_id fs svc so json_file bs emb hfile hemb hupsert
  refine ⟨by simp [create_collection, hc1],
    (setup_conversation_result user_id so).mpr ⟨n, hget⟩, h1, ?_, ?_⟩
  · have hmem : Event.upsert (get_collection_name user_id "profile")
        (bs.map (mkProfilePoint emb))
        ∈ networkCalls (upload_profile user_id fs svc so json_file).2 := by
      rw [h2]
      simp
    unfold networkCalls at hmem
    exact List.mem_of_mem_filter hmem
  · simp [mkProfilePoint]

/-- C6 witness: a concrete re-run against a store where both collections
already exist. -/
theorem C6_witness :
    (create_collection existsStore (get_collection_name "nana" "profile") VECTOR_SIZE).1
      = false ∧
    (setup_conversation_collection "nana" existsStore).1 = true ∧
    (upload_profile "nana" sampleFS sampleSvc existsStore "profile.json").1 = true ∧
    Event.upsert (get_collection_name "nana" "profile")
        ([sampleBlock].map (mkProfilePoint sampleEmb))
      ∈ (upload_profile "nana" sampleFS sampleSvc existsStore "profile.json").2 ∧
    ([sampleBlock].map (mkProfilePoint sampleEmb)).map Point.id =
      [sampleBlock].map (fun b => some b.id) :=
  C6_idempotent_creation "nana" sampleFS sampleSvc existsStore "profile.json" [sampleBlock]
    sampleEmb 5 "collection already exists" "collection already exists" rfl rfl rfl rfl
    (by
      intro b hb
      simp only [List.mem_singleton] at hb
      subst hb
      simp [get_embedding, sampleSvc, goodSvc, Json.getField, lookupField, sampleEmb])
    rfl

/-- C9: `validate_json_file` accepts exactly the files whose whole content
parses as JSON, of any shape; a parseable file whose value is not a list
of readable {id, text, category} records passes CLI validation but makes
`upload_profile` fail through its generic handler, returning false. -/
theorem C9_validate_is_syntactic (user_id : String) (fs : FS) (svc : EmbedSvc)
    (so : StoreOracle) (json_file : String) (j : Json)
    (hfile : fs json_file = FileContent.valid j)
    (hbad : (∃ er, pyIter j = Except.error er) ∨
       (∃ blocks, pyIter j = Except.ok blocks ∧ ∃ b ∈ blocks, ¬ blockFieldsOk b)) :
    (∀ (g : FS) (f : String), validate_json_file g f = true ↔
       ∃ j2, g f = FileContent.valid j2) ∧
    validate_json_file fs json_file = true ∧
    (upload_profile user_id fs svc so json_file).1 = false ∧
    (upload_profile_command user_id fs svc so json_file).1 = false := by
  have hval : ∀ (g : FS) (f : String), validate_json_file g f = true ↔
      ∃ j2, g f = FileContent.valid j2 := by
    intro g f
    cases hg : g f with
    | valid j2 => simp [validate_json_file, hg]
    | missing => simp [validate_json_file, hg]
    | invalid => simp [validate_json_file, hg]
  have hv : validate_json_file fs json_file = true := by
    simp [validate_json_file, hfile]
  have hl : load_blocks_from_json fs json_file = Except.ok j := by
    simp [load_blocks_from_json, hfile]
  have hup : (upload_profile user_id fs svc so json_file).1 = false := by
    rcases hbad with ⟨er, hit⟩ | ⟨blocks, hit, b, hb, hnb⟩
    · simp [upload_profile, hv, hl, hit]
    · cases hbp : build_points svc blocks with
      | mk res ev2 =>
        cases res with
        | ok points =>
          exact absurd ((build_points_ok_inv svc blocks points ev2 hbp).1 b hb) hnb
        | error er => simp [upload_profile, hv, hl, hit, hbp]
  have hex : os_path_exists fs json_file = true := by
    simp [os_path_exists, hfile]
  exact ⟨hval, hv, hup, by simp [upload_profile_command, hex, hv, hup]⟩

/-- C9 witness: a file holding the JSON number 5 — syntactically valid,
shape-nonconforming — passes validation and fails the upload. -/
theorem C9_witness :
    (∀ (g : FS) (f : String), validate_json_file g f = true ↔
       ∃ j2, g f = FileContent.valid j2) ∧
    validate_json_file (constFS (Json.num 5)) "profile.json" = true ∧
    (upload_profile "nana" (constFS (Json.num 5)) noEmbed okStore "profile.json").1 = false ∧
    (upload_profile_command "nana" (constFS (Json.num 5)) noEmbed okStore "profile.json").1
      = false :=
  C9_validate_is_syntactic "nana" (constFS (Json.num 5)) noEmbed okStore "profile.json"
    (Json.num 5) rfl (Or.inl ⟨"TypeError: object is not iterable", rfl⟩)

end PersonalAI
